import Mathlib

/-!
Shallow embedding of the portfolio backend's three blueprint request handlers:

* `handle_contact_form`   — src/contact.py
* `handle_subscription`   — src/newsletter.py
* `handle_resume_request` — src/resume.py

These are the handlers registered by the package's `create_app`
(src/__init__.py).  The standalone legacy module src/app.py defines its own
superseded variants; it references `Limiter` without importing it and cannot
even be imported, so the blueprint handlers are the program under
verification.

Modelling conventions:

* A parsed JSON body is an association list of string-valued fields (the only
  kind these handlers read); `Option Json` is the result of
  `request.get_json()`, with `none` for an absent or unparseable body.
* Python truthiness of `data.get(k)` is `falsy`; truthiness of the whole dict
  (`if not data`) is `none`-or-empty-list.
* Database state is an explicit `Db` record of the three collections; a
  handler returns the response (or `none` for an uncaught Python exception
  that escapes to the framework), the resulting database, and a trace of its
  outward side effects in order (email attempts, inserts, lookups).
* `send_email` and `is_valid_email` live in `utils.py`, which is not part of
  the sources here; the notifier's outcome is therefore an explicit parameter
  of each handler, and `is_valid_email` is modelled from the spec (see its
  doc comment).  Whether an insert raises (`PyMongoError` / any exception
  inside the handler's `try`) is likewise an explicit `insertOk` parameter.
-/

/-- A parsed JSON object body with string-valued fields. -/
abbrev Json : Type := List (String × String)

/-- Python dict lookup `data.get(k)`: the value of the first binding of key
`k`, if any. -/
def jget (data : Json) (k : String) : Option String :=
  (List.find? (fun p => p.1 == k) data).map (fun p => p.2)

/-- Python truthiness test `not x` for an optional string field: true when the
key is absent (`None`) or the string is empty. -/
def falsy : Option String → Bool
  | none => true
  | some s => s == ""

/-- Helper for `is_valid_email`: some later character list contains an `'@'`
followed (not necessarily immediately) by a `'.'`. -/
def hasDotAfterAt : List Char → Bool
  | [] => false
  | c :: rest =>
      if c == '@' then (rest.contains '.' || hasDotAfterAt rest)
      else hasDotAfterAt rest

/-- Modelled from the spec: `is_valid_email` is imported from `..utils`, a
module absent from the sources.  The spec describes it as a permissive
syntactic check — the address "contains an `@` and a `.` after it"
(local-part `@` domain-part `.` tld-part). -/
def is_valid_email (s : String) : Bool :=
  hasDotAfterAt s.toList

/-- A document of the `contact_form` collection (src/contact.py lines 41-48). -/
structure ContactRecord where
  name : String
  email : String
  subject : String
  message : String
  timestamp : Nat
  ip_address : String
deriving DecidableEq

/-- A document of the `newsletter_subscribers` collection
(src/newsletter.py line 32). -/
structure SubscriberRecord where
  email : String
  timestamp : Nat
deriving DecidableEq

/-- A document of the `resume_requests` collection (src/resume.py
lines 36-38 and 53-55). -/
structure ResumeRecord where
  name : String
  email : String
  timestamp : Nat
  email_status : String
  email_error : Option String
deriving DecidableEq

/-- The three collections of the document store. -/
structure Db where
  contact_form : List ContactRecord
  newsletter_subscribers : List SubscriberRecord
  resume_requests : List ResumeRecord
deriving DecidableEq

/-- An outward side effect of a handler, in execution order. -/
inductive Event where
  | emailAttempt (recipient : String) (success : Bool)
  | insertContact (r : ContactRecord)
  | insertSubscriber (r : SubscriberRecord)
  | insertResume (r : ResumeRecord)
  | findSubscriber (email : String)
deriving DecidableEq

/-- The JSON response a handler builds: HTTP status plus the keys the
handlers actually emit (`success`, `message`, `error`, `details`). -/
structure Response where
  status : Nat
  success : Option Bool := none
  message : Option String := none
  error : Option String := none
  details : List (String × String) := []
deriving DecidableEq

/-- The complete outcome of one handler invocation.  `result = none` models an
uncaught Python exception escaping the handler, which the framework converts
to a generic 500. -/
structure Outcome where
  result : Option Response
  db : Option Db
  trace : List Event
deriving DecidableEq

/-- The HTTP status the client observes: the response's status, or 500 when an
exception escaped the handler. -/
def httpStatus (o : Outcome) : Nat :=
  match o.result with
  | some r => r.status
  | none => 500

/-- Response for `db is None` (identical in all three handlers). -/
def resp503 : Response :=
  { status := 503, error := some "Database connection not available" }

/-- Response for a missing/falsy JSON body. -/
def respMissingJson : Response :=
  { status := 400, error := some "Missing JSON in request body" }

/-- The `errors` dict built by src/contact.py lines 24-36. -/
def contactErrors (data : Json) : List (String × String) :=
  (if falsy (jget data "name") then [("name", "Name is a required field.")] else [])
  ++ (if falsy (jget data "email") then [("email", "Email is a required field.")]
      else if !is_valid_email ((jget data "email").getD "") then
        [("email", "A valid email address format is required.")]
      else [])
  ++ (if falsy (jget data "message") then [("message", "Message is a required field.")] else [])

/-- The `errors` dict built by src/newsletter.py lines 20-25. -/
def subscribeErrors (data : Json) : List (String × String) :=
  if falsy (jget data "email") then [("email", "Email is a required field.")]
  else if !is_valid_email ((jget data "email").getD "") then
    [("email", "A valid email address format is required.")]
  else []

/-- The `errors` dict built by src/resume.py lines 25-31. -/
def resumeErrors (data : Json) : List (String × String) :=
  (if falsy (jget data "name") then [("name", "Name is a required field.")] else [])
  ++ (if falsy (jget data "email") then [("email", "Email is a required field.")]
      else if !is_valid_email ((jget data "email").getD "") then
        [("email", "A valid email address format is required.")]
      else [])

/-- src/contact.py `handle_contact_form`.  `recipient_email` is
`Config.RECIPIENT_EMAIL`; `notifyOk` is the (ignored) return value of the
best-effort `send_email` notification; `insertOk` is whether
`db.contact_form.insert_one` succeeds (false models a `PyMongoError`). -/
def handle_contact_form (dbc : Option Db) (body : Option Json)
    (recipient_email : Option String) (notifyOk : Bool) (insertOk : Bool)
    (ts : Nat) (ip : String) : Outcome :=
  match dbc with
  | none => { result := some resp503, db := none, trace := [] }
  | some db =>
    match body with
    | none => { result := some respMissingJson, db := some db, trace := [] }
    | some data =>
      if data = [] then { result := some respMissingJson, db := some db, trace := [] }
      else
        let errors := contactErrors data
        if errors = [] then
          let msg : ContactRecord :=
            { name := (jget data "name").getD "",
              email := (jget data "email").getD "",
              subject := (jget data "subject").getD "No Subject",
              message := (jget data "message").getD "",
              timestamp := ts,
              ip_address := ip }
          if insertOk then
            let notifyTrace : List Event :=
              if falsy recipient_email then []
              else [Event.emailAttempt (recipient_email.getD "") notifyOk]
            let resp : Response :=
              { status := 201, success := some true, message := some "Message received successfully!" }
            { result := some resp,
              db := some { db with contact_form := db.contact_form ++ [msg] },
              trace := Event.insertContact msg :: notifyTrace }
          else
            let resp : Response :=
              { status := 500, error := some "An internal error occurred while saving the message." }
            { result := some resp, db := some db, trace := [] }
        else
          let resp : Response :=
            { status := 400, error := some "Validation failed", details := errors }
          { result := some resp, db := some db, trace := [] }

/-- src/newsletter.py `handle_subscription`.  `insertOk` is whether the insert
inside the `try` succeeds. -/
def handle_subscription (dbc : Option Db) (body : Option Json)
    (insertOk : Bool) (ts : Nat) : Outcome :=
  match dbc with
  | none => { result := some resp503, db := none, trace := [] }
  | some db =>
    match body with
    | none => { result := some respMissingJson, db := some db, trace := [] }
    | some data =>
      if data = [] then { result := some respMissingJson, db := some db, trace := [] }
      else
        let errors := subscribeErrors data
        if errors = [] then
          let email := (jget data "email").getD ""
          match List.find? (fun r => r.email == email) db.newsletter_subscribers with
          | some _ =>
            let resp : Response :=
              { status := 200, success := some true, message := some "You are already subscribed!" }
            { result := some resp, db := some db, trace := [Event.findSubscriber email] }
          | none =>
            if insertOk then
              let sub : SubscriberRecord := { email := email, timestamp := ts }
              let resp : Response :=
                { status := 201, success := some true, message := some "Thank you for subscribing!" }
              { result := some resp,
                db := some { db with
                  newsletter_subscribers := db.newsletter_subscribers ++ [sub] },
                trace := [Event.findSubscriber email, Event.insertSubscriber sub] }
            else
              let resp : Response :=
                { status := 500, error := some "An internal error occurred." }
              { result := some resp, db := some db, trace := [Event.findSubscriber email] }
        else
          let resp : Response :=
            { status := 400, error := some "Validation failed", details := errors }
          { result := some resp, db := some db, trace := [] }

/-- src/resume.py `handle_resume_request`.  `sendResume` is the
`(success, status_message)` pair returned by `send_email` (from the absent
`utils.py`); `insertOk` is whether `db.resume_requests.insert_one` succeeds.
When the body is absent, `data.get('name')` (line 19) runs before the
`if not data` guard (line 22), so the attribute access on `None` raises and
the exception escapes the handler — the `try` only starts at line 40. -/
def handle_resume_request (dbc : Option Db) (body : Option Json)
    (sendResume : Bool × String) (insertOk : Bool) (ts : Nat) : Outcome :=
  match dbc with
  | none => { result := some resp503, db := none, trace := [] }
  | some db =>
    match body with
    | none => { result := none, db := some db, trace := [] }
    | some data =>
      if data = [] then { result := some respMissingJson, db := some db, trace := [] }
      else
        let errors := resumeErrors data
        if errors = [] then
          let name := (jget data "name").getD ""
          let email := (jget data "email").getD ""
          let success := sendResume.1
          let status_message := sendResume.2
          let record0 : ResumeRecord :=
            { name := name, email := email, timestamp := ts,
              email_status := "pending", email_error := none }
          let record1 : ResumeRecord :=
            { record0 with
              email_status := if success then "sent" else "failed",
              email_error := if success then none else some status_message }
          if insertOk then
            let respSent : Response :=
              { status := 200, success := some true, message := some "Thank you! The resume has been sent to your email." }
            let respNotSent : Response :=
              { status := 500, success := some false, message := some "Your request was received, but we couldn\x27t send the email. Please try again later." }
            { result := some (if success then respSent else respNotSent),
              db := some { db with resume_requests := db.resume_requests ++ [record1] },
              trace := [Event.emailAttempt email success, Event.insertResume record1] }
          else
            let resp : Response :=
              { status := 500, error := some "An internal server error occurred." }
            { result := some resp, db := some db, trace := [Event.emailAttempt email success] }
        else
          let resp : Response :=
            { status := 400, error := some "Validation failed", details := errors }
          { result := some resp, db := some db, trace := [] }

/-- C4: when the storage handle is unavailable (`db is None`), each of the
three handlers returns the 503 response immediately, with the database
untouched and no side effect (empty trace), for every request body and every
environment. -/
theorem storage_unavailable_returns_503 (body : Option Json) (re : Option String)
    (nOk iOk : Bool) (sr : Bool × String) (ts : Nat) (ip : String) :
    handle_contact_form none body re nOk iOk ts ip
      = { result := some resp503, db := none, trace := [] }
    ∧ handle_subscription none body iOk ts
      = { result := some resp503, db := none, trace := [] }
    ∧ handle_resume_request none body sr iOk ts
      = { result := some resp503, db := none, trace := [] }
    ∧ resp503.status = 503 :=
  ⟨rfl, rfl, rfl, rfl⟩

/-- C7: on an absent or unparseable body, the contact and subscribe handlers
return the distinct 400 "Missing JSON in request body"; the resume-request
handler instead evaluates `data.get('name')` on `None`, the `AttributeError`
escapes the handler, and the framework answers 500 — not the distinct 400 the
spec describes. -/
theorem resume_missing_body_crash :
    (handle_resume_request (some ⟨[], [], []⟩) none (true, "") true 0).result = none
    ∧ httpStatus (handle_resume_request (some ⟨[], [], []⟩) none (true, "") true 0) = 500
    ∧ (handle_contact_form (some ⟨[], [], []⟩) none none true true 0 "ip").result
        = some respMissingJson
    ∧ (handle_subscription (some ⟨[], [], []⟩) none true 0).result = some respMissingJson
    ∧ respMissingJson.status = 400 :=
  ⟨rfl, rfl, rfl, rfl, rfl⟩

/-- C1: on a valid resume request with storage available (validation passes,
insert succeeds), the notifier runs first and the record is inserted
afterwards, exactly once, already carrying the final `email_status`
determined by the notifier's outcome. -/
theorem resume_notify_before_insert (db : Db) (data : Json) (s : Bool) (m : String)
    (ts : Nat) (hne : data ≠ []) (herr : resumeErrors data = []) :
    ∃ r : ResumeRecord,
      (handle_resume_request (some db) (some data) (s, m) true ts).trace
        = [Event.emailAttempt ((jget data "email").getD "") s, Event.insertResume r]
      ∧ (handle_resume_request (some db) (some data) (s, m) true ts).db
          = some { db with resume_requests := db.resume_requests ++ [r] }
      ∧ r.email_status = (if s then "sent" else "failed") := by
  refine ⟨⟨(jget data "name").getD "", (jget data "email").getD "", ts,
    if s then "sent" else "failed", if s then none else some m⟩, ?_, ?_, ?_⟩ <;>
    simp [handle_resume_request, hne, herr]

/-- Witness for C1 at a concrete valid request. -/
theorem resume_notify_before_insert_witness :
    ∃ r : ResumeRecord,
      (handle_resume_request (some ⟨[], [], []⟩)
          (some [("name", "A"), ("email", "a@b.com")]) (true, "") true 0).trace
        = [Event.emailAttempt ((jget [("name", "A"), ("email", "a@b.com")] "email").getD "") true,
           Event.insertResume r]
      ∧ (handle_resume_request (some ⟨[], [], []⟩)
          (some [("name", "A"), ("email", "a@b.com")]) (true, "") true 0).db
          = some { Db.mk [] [] [] with
              resume_requests := (Db.mk [] [] []).resume_requests ++ [r] }
      ∧ r.email_status = (if true then "sent" else "failed") :=
  resume_notify_before_insert ⟨[], [], []⟩ [("name", "A"), ("email", "a@b.com")]
    true "" 0 (by decide) (by rfl)

/-- C3: for every resume request that reaches persistence, the inserted record
has `email_status = "failed"` together with a non-empty `email_error` when the
notifier reported failure (its reason string being non-empty, per the spec's
`failure(reason)` contract for the absent `utils.send_email`), and
`email_status = "sent"` with no `email_error` field when it succeeded. -/
theorem resume_record_email_status (db : Db) (data : Json) (s : Bool) (m : String)
    (ts : Nat) (hne : data ≠ []) (herr : resumeErrors data = []) (hm : m ≠ "") :
    ∃ r : ResumeRecord,
      (handle_resume_request (some db) (some data) (s, m) true ts).db
        = some { db with resume_requests := db.resume_requests ++ [r] }
      ∧ (s = false → r.email_status = "failed"
          ∧ ∃ err, r.email_error = some err ∧ err ≠ "")
      ∧ (s = true → r.email_status = "sent" ∧ r.email_error = none) := by
  refine ⟨⟨(jget data "name").getD "", (jget data "email").getD "", ts,
    if s then "sent" else "failed", if s then none else some m⟩, ?_, ?_, ?_⟩
  · simp [handle_resume_request, hne, herr]
  · intro hs; subst hs; exact ⟨rfl, m, rfl, hm⟩
  · intro hs; subst hs; exact ⟨rfl, rfl⟩

/-- Witness for C3 at a concrete request whose notifier failed. -/
theorem resume_record_email_status_witness :
    ∃ r : ResumeRecord,
      (handle_resume_request (some ⟨[], [], []⟩)
          (some [("name", "A"), ("email", "a@b.com")]) (false, "SMTP down") true 0).db
        = some { Db.mk [] [] [] with
            resume_requests := (Db.mk [] [] []).resume_requests ++ [r] }
      ∧ (false = false → r.email_status = "failed"
          ∧ ∃ err, r.email_error = some err ∧ err ≠ "")
      ∧ (false = true → r.email_status = "sent" ∧ r.email_error = none) :=
  resume_record_email_status ⟨[], [], []⟩ [("name", "A"), ("email", "a@b.com")]
    false "SMTP down" 0 (by decide) (by rfl) (by decide)

/-- C10: when the resume email send succeeds but the subsequent insert raises,
the handler answers with the generic 500 error even though the email was
already transmitted (the send is in the trace), and no record is persisted —
the send and the insert are not atomic. -/
theorem resume_sent_but_not_persisted (db : Db) (data : Json) (m : String)
    (ts : Nat) (hne : data ≠ []) (herr : resumeErrors data = []) :
    ∃ r : Response,
      (handle_resume_request (some db) (some data) (true, m) false ts).result = some r
      ∧ r.status = 500 ∧ r.error = some "An internal server error occurred."
      ∧ (handle_resume_request (some db) (some data) (true, m) false ts).trace
          = [Event.emailAttempt ((jget data "email").getD "") true]
      ∧ (handle_resume_request (some db) (some data) (true, m) false ts).db = some db := by
  refine ⟨{ status := 500, error := some "An internal server error occurred." },
    ?_, rfl, rfl, ?_, ?_⟩ <;> simp [handle_resume_request, hne, herr]

/-- Witness for C10 at a concrete request. -/
theorem resume_sent_but_not_persisted_witness :
    ∃ r : Response,
      (handle_resume_request (some ⟨[], [], []⟩)
          (some [("name", "A"), ("email", "a@b.com")]) (true, "") false 0).result = some r
      ∧ r.status = 500 ∧ r.error = some "An internal server error occurred."
      ∧ (handle_resume_request (some ⟨[], [], []⟩)
          (some [("name", "A"), ("email", "a@b.com")]) (true, "") false 0).trace
          = [Event.emailAttempt ((jget [("name", "A"), ("email", "a@b.com")] "email").getD "") true]
      ∧ (handle_resume_request (some ⟨[], [], []⟩)
          (some [("name", "A"), ("email", "a@b.com")]) (true, "") false 0).db
          = some ⟨[], [], []⟩ :=
  resume_sent_but_not_persisted ⟨[], [], []⟩ [("name", "A"), ("email", "a@b.com")]
    "" 0 (by decide) (by rfl)

/-- C8: a contact submission with valid name, email and message but no subject
field (storage available) succeeds with 201 and a success body, and exactly
one new `contact_form` document is stored, its subject defaulted to
"No Subject". -/
theorem contact_default_subject_201 (db : Db) (data : Json) (re : Option String)
    (nOk : Bool) (ts : Nat) (ip : String)
    (hne : data ≠ []) (herr : contactErrors data = [])
    (hsub : jget data "subject" = none) :
    ∃ msg : ContactRecord,
      (handle_contact_form (some db) (some data) re nOk true ts ip).result
        = some { status := 201, success := some true,
                 message := some "Message received successfully!" }
      ∧ (handle_contact_form (some db) (some data) re nOk true ts ip).db
          = some { db with contact_form := db.contact_form ++ [msg] }
      ∧ msg.subject = "No Subject" := by
  refine ⟨⟨(jget data "name").getD "", (jget data "email").getD "",
    (jget data "subject").getD "No Subject", (jget data "message").getD "", ts, ip⟩,
    ?_, ?_, ?_⟩ <;> simp [handle_contact_form, hne, herr, hsub]

/-- Witness for C8 at the spec's concrete example body. -/
theorem contact_default_subject_201_witness :
    ∃ msg : ContactRecord,
      (handle_contact_form (some ⟨[], [], []⟩)
          (some [("name", "A"), ("email", "a@b.com"), ("message", "hi")])
          none true true 0 "ip").result
        = some { status := 201, success := some true,
                 message := some "Message received successfully!" }
      ∧ (handle_contact_form (some ⟨[], [], []⟩)
          (some [("name", "A"), ("email", "a@b.com"), ("message", "hi")])
          none true true 0 "ip").db
          = some { Db.mk [] [] [] with
              contact_form := (Db.mk [] [] []).contact_form ++ [msg] }
      ∧ msg.subject = "No Subject" :=
  contact_default_subject_201 ⟨[], [], []⟩
    [("name", "A"), ("email", "a@b.com"), ("message", "hi")]
    none true 0 "ip" (by decide) (by rfl) (by rfl)

/-- C9: a valid contact submission that is successfully persisted is answered
with 201 and a success body regardless of the notification outcome; the
response is literally the same whether the notify succeeded or failed. -/
theorem contact_notify_failure_still_201 (db : Db) (data : Json) (re : Option String)
    (ts : Nat) (ip : String) (hne : data ≠ []) (herr : contactErrors data = []) :
    (∀ nOk : Bool, ∃ r : Response,
        (handle_contact_form (some db) (some data) re nOk true ts ip).result = some r
        ∧ r.status = 201 ∧ r.success = some true)
    ∧ (handle_contact_form (some db) (some data) re false true ts ip).result
        = (handle_contact_form (some db) (some data) re true true ts ip).result := by
  constructor
  · intro nOk
    refine ⟨{ status := 201, success := some true, message := some "Message received successfully!" }, ?_, rfl, rfl⟩
    simp [handle_contact_form, hne, herr]
  · simp [handle_contact_form, hne, herr]

/-- Witness for C9 at a concrete valid submission, for a failed notify. -/
theorem contact_notify_failure_still_201_witness :
    (∃ r : Response,
        (handle_contact_form (some ⟨[], [], []⟩)
            (some [("name", "A"), ("email", "a@b.com"), ("message", "hi")])
            (some "me@x.io") false true 0 "ip").result = some r
        ∧ r.status = 201 ∧ r.success = some true)
    ∧ (handle_contact_form (some ⟨[], [], []⟩)
          (some [("name", "A"), ("email", "a@b.com"), ("message", "hi")])
          (some "me@x.io") false true 0 "ip").result
        = (handle_contact_form (some ⟨[], [], []⟩)
            (some [("name", "A"), ("email", "a@b.com"), ("message", "hi")])
            (some "me@x.io") true true 0 "ip").result :=
  ⟨(contact_notify_failure_still_201 ⟨[], [], []⟩
      [("name", "A"), ("email", "a@b.com"), ("message", "hi")]
      (some "me@x.io") 0 "ip" (by decide) (by rfl)).1 false,
   (contact_notify_failure_still_201 ⟨[], [], []⟩
      [("name", "A"), ("email", "a@b.com"), ("message", "hi")]
      (some "me@x.io") 0 "ip" (by decide) (by rfl)).2⟩

/-- C2: subscribing the same email twice in sequence (storage available, email
not yet subscribed) yields 201 then 200, and afterwards exactly one
subscription record for that email exists in storage (the second call changes
nothing). -/
theorem subscribe_twice_idempotent (db : Db) (data : Json) (ts1 ts2 : Nat)
    (hne : data ≠ []) (herr : subscribeErrors data = [])
    (hfresh : db.newsletter_subscribers.filter
      (fun r => r.email == (jget data "email").getD "") = []) :
    httpStatus (handle_subscription (some db) (some data) true ts1) = 201
    ∧ httpStatus (handle_subscription
        (handle_subscription (some db) (some data) true ts1).db (some data) true ts2) = 200
    ∧ (handle_subscription
        (handle_subscription (some db) (some data) true ts1).db (some data) true ts2).db
      = (handle_subscription (some db) (some data) true ts1).db
    ∧ ∃ db1 : Db, (handle_subscription (some db) (some data) true ts1).db = some db1
        ∧ (db1.newsletter_subscribers.filter
            (fun r => r.email == (jget data "email").getD "")).length = 1 := by
  have hfind : List.find? (fun r => r.email == (jget data "email").getD "")
      db.newsletter_subscribers = none :=
    List.find?_eq_none.mpr (List.filter_eq_nil_iff.mp hfresh)
  have h1 : handle_subscription (some db) (some data) true ts1
      = { result := some { status := 201, success := some true, message := some "Thank you for subscribing!" },
          db := some { db with newsletter_subscribers := db.newsletter_subscribers ++ [⟨(jget data "email").getD "", ts1⟩] },
          trace := [Event.findSubscriber ((jget data "email").getD ""), Event.insertSubscriber ⟨(jget data "email").getD "", ts1⟩] } := by
    simp [handle_subscription, hne, herr, hfind]
  have hfind2 : List.find? (fun r => r.email == (jget data "email").getD "")
      (db.newsletter_subscribers ++ [⟨(jget data "email").getD "", ts1⟩])
      = some ⟨(jget data "email").getD "", ts1⟩ := by
    simp [List.find?_append, hfind, List.find?]
  have h2 : handle_subscription
      (some { db with newsletter_subscribers := db.newsletter_subscribers ++ [⟨(jget data "email").getD "", ts1⟩] })
      (some data) true ts2
      = { result := some { status := 200, success := some true, message := some "You are already subscribed!" },
          db := some { db with newsletter_subscribers := db.newsletter_subscribers ++ [⟨(jget data "email").getD "", ts1⟩] },
          trace := [Event.findSubscriber ((jget data "email").getD "")] } := by
    simp [handle_subscription, hne, herr, hfind2]
  rw [h1]
  refine ⟨rfl, ?_, ?_, ?_⟩
  · show httpStatus (handle_subscription
      (some { db with newsletter_subscribers := db.newsletter_subscribers ++ [⟨(jget data "email").getD "", ts1⟩] })
      (some data) true ts2) = 200
    rw [h2]
    rfl
  · show (handle_subscription
      (some { db with newsletter_subscribers := db.newsletter_subscribers ++ [⟨(jget data "email").getD "", ts1⟩] })
      (some data) true ts2).db = _
    rw [h2]
  · refine ⟨_, rfl, ?_⟩
    simp [List.filter_append, hfresh]

/-- Witness for C2 at a concrete email and an initially empty store. -/
theorem subscribe_twice_idempotent_witness :
    httpStatus (handle_subscription (some ⟨[], [], []⟩)
        (some [("email", "a@b.com")]) true 0) = 201
    ∧ httpStatus (handle_subscription
        (handle_subscription (some ⟨[], [], []⟩) (some [("email", "a@b.com")]) true 0).db
        (some [("email", "a@b.com")]) true 1) = 200
    ∧ (handle_subscription
        (handle_subscription (some ⟨[], [], []⟩) (some [("email", "a@b.com")]) true 0).db
        (some [("email", "a@b.com")]) true 1).db
      = (handle_subscription (some ⟨[], [], []⟩) (some [("email", "a@b.com")]) true 0).db
    ∧ ∃ db1 : Db, (handle_subscription (some ⟨[], [], []⟩)
          (some [("email", "a@b.com")]) true 0).db = some db1
        ∧ (db1.newsletter_subscribers.filter
            (fun r => r.email == (jget [("email", "a@b.com")] "email").getD "")).length = 1 :=
  subscribe_twice_idempotent ⟨[], [], []⟩ [("email", "a@b.com")] 0 1
    (by decide) (by rfl) (by rfl)

/-- Helper: a falsy name field puts the name message into the contact errors. -/
theorem contactErrors_name_mem (data : Json) (hf : falsy (jget data "name") = true) :
    ("name", "Name is a required field.") ∈ contactErrors data := by
  simp [contactErrors, hf]

/-- Helper: a falsy email field puts the email message into the contact errors. -/
theorem contactErrors_email_mem (data : Json) (hf : falsy (jget data "email") = true) :
    ("email", "Email is a required field.") ∈ contactErrors data := by
  simp [contactErrors, hf]

/-- Helper: a falsy message field puts the message entry into the contact errors. -/
theorem contactErrors_message_mem (data : Json) (hf : falsy (jget data "message") = true) :
    ("message", "Message is a required field.") ∈ contactErrors data := by
  simp [contactErrors, hf]

/-- Helper: a falsy email field puts the email message into the subscribe errors. -/
theorem subscribeErrors_email_mem (data : Json) (hf : falsy (jget data "email") = true) :
    ("email", "Email is a required field.") ∈ subscribeErrors data := by
  simp [subscribeErrors, hf]

/-- Helper: a falsy name field puts the name message into the resume errors. -/
theorem resumeErrors_name_mem (data : Json) (hf : falsy (jget data "name") = true) :
    ("name", "Name is a required field.") ∈ resumeErrors data := by
  simp [resumeErrors, hf]

/-- Helper: a falsy email field puts the email message into the resume errors. -/
theorem resumeErrors_email_mem (data : Json) (hf : falsy (jget data "email") = true) :
    ("email", "Email is a required field.") ∈ resumeErrors data := by
  simp [resumeErrors, hf]

/-- Helper: with a non-empty body and non-empty errors, the contact handler
returns the 400 validation response carrying the errors as `details`. -/
theorem contact_validation_400 (db : Db) (data : Json) (re : Option String)
    (nOk iOk : Bool) (ts : Nat) (ip : String)
    (hne : data ≠ []) (hf : contactErrors data ≠ []) :
    (handle_contact_form (some db) (some data) re nOk iOk ts ip).result
      = some { status := 400, error := some "Validation failed", details := contactErrors data } := by
  simp [handle_contact_form, hne, hf]

/-- Helper: with a non-empty body and non-empty errors, the subscribe handler
returns the 400 validation response carrying the errors as `details`. -/
theorem subscribe_validation_400 (db : Db) (data : Json) (iOk : Bool) (ts : Nat)
    (hne : data ≠ []) (hf : subscribeErrors data ≠ []) :
    (handle_subscription (some db) (some data) iOk ts).result
      = some { status := 400, error := some "Validation failed", details := subscribeErrors data } := by
  simp [handle_subscription, hne, hf]

/-- Helper: with a non-empty body and non-empty errors, the resume handler
returns the 400 validation response carrying the errors as `details`. -/
theorem resume_validation_400 (db : Db) (data : Json) (sr : Bool × String)
    (iOk : Bool) (ts : Nat) (hne : data ≠ []) (hf : resumeErrors data ≠ []) :
    (handle_resume_request (some db) (some data) sr iOk ts).result
      = some { status := 400, error := some "Validation failed", details := resumeErrors data } := by
  simp [handle_resume_request, hne, hf]

/-- C5 as stated is refuted by the empty JSON object: `{}` is a parseable body
omitting every required field, yet Python's `if not data` treats it like a
missing body, so the handlers answer 400 "Missing JSON in request body" with
no `details` naming the missing field. -/
theorem contact_empty_object_missing_json_no_details :
    jget [] "name" = none
    ∧ handle_contact_form (some ⟨[], [], []⟩) (some []) none true true 0 "ip"
        = { result := some respMissingJson, db := some ⟨[], [], []⟩, trace := [] }
    ∧ respMissingJson.details = [] ∧ respMissingJson.status = 400 :=
  ⟨rfl, rfl, rfl, rfl⟩

/-- C5 (amended): for every parseable, non-empty JSON body that omits (or
leaves empty) a required field, the handler answers 400 with that field named
in `details` — contact requires name, email and message; subscribe requires
email; resume-request requires name and email. -/
theorem missing_field_named_in_details (db : Db) (data : Json) (re : Option String)
    (nOk iOk : Bool) (sr : Bool × String) (ts : Nat) (ip : String)
    (hne : data ≠ []) :
    (falsy (jget data "name") = true →
      ∃ r : Response, (handle_contact_form (some db) (some data) re nOk iOk ts ip).result = some r
        ∧ r.status = 400 ∧ ∃ m, ("name", m) ∈ r.details)
    ∧ (falsy (jget data "email") = true →
      ∃ r : Response, (handle_contact_form (some db) (some data) re nOk iOk ts ip).result = some r
        ∧ r.status = 400 ∧ ∃ m, ("email", m) ∈ r.details)
    ∧ (falsy (jget data "message") = true →
      ∃ r : Response, (handle_contact_form (some db) (some data) re nOk iOk ts ip).result = some r
        ∧ r.status = 400 ∧ ∃ m, ("message", m) ∈ r.details)
    ∧ (falsy (jget data "email") = true →
      ∃ r : Response, (handle_subscription (some db) (some data) iOk ts).result = some r
        ∧ r.status = 400 ∧ ∃ m, ("email", m) ∈ r.details)
    ∧ (falsy (jget data "name") = true →
      ∃ r : Response, (handle_resume_request (some db) (some data) sr iOk ts).result = some r
        ∧ r.status = 400 ∧ ∃ m, ("name", m) ∈ r.details)
    ∧ (falsy (jget data "email") = true →
      ∃ r : Response, (handle_resume_request (some db) (some data) sr iOk ts).result = some r
        ∧ r.status = 400 ∧ ∃ m, ("email", m) ∈ r.details) := by
  refine ⟨fun hf => ?_, fun hf => ?_, fun hf => ?_, fun hf => ?_, fun hf => ?_, fun hf => ?_⟩
  · exact ⟨_, contact_validation_400 db data re nOk iOk ts ip hne
      (List.ne_nil_of_mem (contactErrors_name_mem data hf)), rfl,
      _, contactErrors_name_mem data hf⟩
  · exact ⟨_, contact_validation_400 db data re nOk iOk ts ip hne
      (List.ne_nil_of_mem (contactErrors_email_mem data hf)), rfl,
      _, contactErrors_email_mem data hf⟩
  · exact ⟨_, contact_validation_400 db data re nOk iOk ts ip hne
      (List.ne_nil_of_mem (contactErrors_message_mem data hf)), rfl,
      _, contactErrors_message_mem data hf⟩
  · exact ⟨_, subscribe_validation_400 db data iOk ts hne
      (List.ne_nil_of_mem (subscribeErrors_email_mem data hf)), rfl,
      _, subscribeErrors_email_mem data hf⟩
  · exact ⟨_, resume_validation_400 db data sr iOk ts hne
      (List.ne_nil_of_mem (resumeErrors_name_mem data hf)), rfl,
      _, resumeErrors_name_mem data hf⟩
  · exact ⟨_, resume_validation_400 db data sr iOk ts hne
      (List.ne_nil_of_mem (resumeErrors_email_mem data hf)), rfl,
      _, resumeErrors_email_mem data hf⟩

/-- Witness for C5 (amended) at a concrete non-empty body omitting every
required field. -/
theorem missing_field_named_in_details_witness :
    (∃ r : Response, (handle_contact_form (some ⟨[], [], []⟩) (some [("x", "y")])
          none true true 0 "ip").result = some r
        ∧ r.status = 400 ∧ ∃ m, ("name", m) ∈ r.details)
    ∧ (∃ r : Response, (handle_subscription (some ⟨[], [], []⟩) (some [("x", "y")])
          true 0).result = some r
        ∧ r.status = 400 ∧ ∃ m, ("email", m) ∈ r.details)
    ∧ (∃ r : Response, (handle_resume_request (some ⟨[], [], []⟩) (some [("x", "y")])
          (true, "") true 0).result = some r
        ∧ r.status = 400 ∧ ∃ m, ("name", m) ∈ r.details) :=
  ⟨(missing_field_named_in_details ⟨[], [], []⟩ [("x", "y")] none true true (true, "")
      0 "ip" (by decide)).1 (by rfl),
   (missing_field_named_in_details ⟨[], [], []⟩ [("x", "y")] none true true (true, "")
      0 "ip" (by decide)).2.2.2.1 (by rfl),
   (missing_field_named_in_details ⟨[], [], []⟩ [("x", "y")] none true true (true, "")
      0 "ip" (by decide)).2.2.2.2.1 (by rfl)⟩

/-- Helper: a syntactically valid email is non-empty. -/
theorem is_valid_email_ne_empty (e : String) (h : is_valid_email e = true) : e ≠ "" := by
  intro he
  subst he
  simp [is_valid_email, hasDotAfterAt, String.toList] at h

/-- Helper: empty contact errors mean the submitted email passed the check. -/
theorem contactErrors_nil_email (data : Json) (h : contactErrors data = []) :
    is_valid_email ((jget data "email").getD "") = true := by
  by_cases h1 : falsy (jget data "email")
  · exfalso
    simp [contactErrors, h1] at h
  · by_cases h2 : is_valid_email ((jget data "email").getD "")
    · exact h2
    · exfalso
      simp [contactErrors, h1, h2] at h

/-- Helper: empty subscribe errors mean the submitted email passed the check. -/
theorem subscribeErrors_nil_email (data : Json) (h : subscribeErrors data = []) :
    is_valid_email ((jget data "email").getD "") = true := by
  by_cases h1 : falsy (jget data "email")
  · exfalso
    simp [subscribeErrors, h1] at h
  · by_cases h2 : is_valid_email ((jget data "email").getD "")
    · exact h2
    · exfalso
      simp [subscribeErrors, h1, h2] at h

/-- Helper: empty resume errors mean the submitted email passed the check. -/
theorem resumeErrors_nil_email (data : Json) (h : resumeErrors data = []) :
    is_valid_email ((jget data "email").getD "") = true := by
  by_cases h1 : falsy (jget data "email")
  · exfalso
    simp [resumeErrors, h1] at h
  · by_cases h2 : is_valid_email ((jget data "email").getD "")
    · exact h2
    · exfalso
      simp [resumeErrors, h1, h2] at h

/-- Invariant of the document store: every persisted record of every
collection carries an email that passes the syntactic check. -/
def dbEmailsValid (db : Db) : Prop :=
  (∀ r ∈ db.contact_form, is_valid_email r.email = true)
  ∧ (∀ r ∈ db.newsletter_subscribers, is_valid_email r.email = true)
  ∧ (∀ r ∈ db.resume_requests, is_valid_email r.email = true)

/-- Helper: the contact handler preserves the email-validity invariant. -/
theorem contact_preserves_valid (db : Db) (body : Option Json) (re : Option String)
    (nOk iOk : Bool) (ts : Nat) (ip : String) (hdb : dbEmailsValid db) :
    ∀ db1 : Db, (handle_contact_form (some db) body re nOk iOk ts ip).db = some db1 →
      dbEmailsValid db1 := by
  intro db1 h
  cases body with
  | none =>
    simp [handle_contact_form] at h
    exact h ▸ hdb
  | some data =>
    by_cases hd : data = []
    · subst hd
      simp [handle_contact_form] at h
      exact h ▸ hdb
    · by_cases he : contactErrors data = []
      · cases iOk with
        | false =>
          simp [handle_contact_form, hd, he] at h
          exact h ▸ hdb
        | true =>
          simp [handle_contact_form, hd, he] at h
          subst h
          refine ⟨?_, hdb.2.1, hdb.2.2⟩
          intro r hr
          rcases List.mem_append.mp hr with hr | hr
          · exact hdb.1 r hr
          · simp at hr
            subst hr
            exact contactErrors_nil_email data he
      · simp [handle_contact_form, hd, he] at h
        exact h ▸ hdb

/-- Helper: the subscribe handler preserves the email-validity invariant. -/
theorem subscribe_preserves_valid (db : Db) (body : Option Json)
    (iOk : Bool) (ts : Nat) (hdb : dbEmailsValid db) :
    ∀ db1 : Db, (handle_subscription (some db) body iOk ts).db = some db1 →
      dbEmailsValid db1 := by
  intro db1 h
  cases body with
  | none =>
    simp [handle_subscription] at h
    exact h ▸ hdb
  | some data =>
    by_cases hd : data = []
    · subst hd
      simp [handle_subscription] at h
      exact h ▸ hdb
    · by_cases he : subscribeErrors data = []
      · cases hfind : List.find? (fun r => r.email == (jget data "email").getD "")
          db.newsletter_subscribers with
        | some s =>
          simp [handle_subscription, hd, he, hfind] at h
          exact h ▸ hdb
        | none =>
          cases iOk with
          | false =>
            simp [handle_subscription, hd, he, hfind] at h
            exact h ▸ hdb
          | true =>
            simp [handle_subscription, hd, he, hfind] at h
            subst h
            refine ⟨hdb.1, ?_, hdb.2.2⟩
            intro r hr
            rcases List.mem_append.mp hr with hr | hr
            · exact hdb.2.1 r hr
            · simp at hr
              subst hr
              exact subscribeErrors_nil_email data he
      · simp [handle_subscription, hd, he] at h
        exact h ▸ hdb

/-- Helper: the resume handler preserves the email-validity invariant. -/
theorem resume_preserves_valid (db : Db) (body : Option Json) (sr : Bool × String)
    (iOk : Bool) (ts : Nat) (hdb : dbEmailsValid db) :
    ∀ db1 : Db, (handle_resume_request (some db) body sr iOk ts).db = some db1 →
      dbEmailsValid db1 := by
  intro db1 h
  cases body with
  | none =>
    simp [handle_resume_request] at h
    exact h ▸ hdb
  | some data =>
    by_cases hd : data = []
    · subst hd
      simp [handle_resume_request] at h
      exact h ▸ hdb
    · by_cases he : resumeErrors data = []
      · cases iOk with
        | false =>
          simp [handle_resume_request, hd, he] at h
          exact h ▸ hdb
        | true =>
          simp [handle_resume_request, hd, he] at h
          subst h
          refine ⟨hdb.1, hdb.2.1, ?_⟩
          intro r hr
          rcases List.mem_append.mp hr with hr | hr
          · exact hdb.2.2 r hr
          · simp at hr
            subst hr
            exact resumeErrors_nil_email data he
      · simp [handle_resume_request, hd, he] at h
        exact h ▸ hdb

/-- Helper: an invalid submitted email forces non-empty contact errors. -/
theorem contactErrors_ne_of_invalid (data : Json)
    (h : is_valid_email ((jget data "email").getD "") = false) :
    contactErrors data ≠ [] := by
  intro hc
  rw [contactErrors_nil_email data hc] at h
  exact absurd h (by simp)

/-- Helper: an invalid submitted email forces non-empty subscribe errors. -/
theorem subscribeErrors_ne_of_invalid (data : Json)
    (h : is_valid_email ((jget data "email").getD "") = false) :
    subscribeErrors data ≠ [] := by
  intro hc
  rw [subscribeErrors_nil_email data hc] at h
  exact absurd h (by simp)

/-- Helper: an invalid submitted email forces non-empty resume errors. -/
theorem resumeErrors_ne_of_invalid (data : Json)
    (h : is_valid_email ((jget data "email").getD "") = false) :
    resumeErrors data ≠ [] := by
  intro hc
  rw [resumeErrors_nil_email data hc] at h
  exact absurd h (by simp)

/-- C6: every record any handler inserts keeps the store's email invariant —
each persisted email is non-empty and passes the syntactic check — and every
submission whose email fails the check (no `@`, or no `.` after it,
including absent or empty emails, whose `getD ""` value fails the check too)
is rejected with 400 by all three handlers, regardless of the other fields. -/
theorem inserted_emails_validated (db : Db) (body : Option Json) (re : Option String)
    (nOk iOk : Bool) (sr : Bool × String) (ts : Nat) (ip : String)
    (hdb : dbEmailsValid db) :
    (∀ db1 : Db, (handle_contact_form (some db) body re nOk iOk ts ip).db = some db1 →
        dbEmailsValid db1)
    ∧ (∀ db1 : Db, (handle_subscription (some db) body iOk ts).db = some db1 →
        dbEmailsValid db1)
    ∧ (∀ db1 : Db, (handle_resume_request (some db) body sr iOk ts).db = some db1 →
        dbEmailsValid db1)
    ∧ (∀ e : String, is_valid_email e = true → e ≠ "")
    ∧ (∀ data : Json, data ≠ [] →
        is_valid_email ((jget data "email").getD "") = false →
        httpStatus (handle_contact_form (some db) (some data) re nOk iOk ts ip) = 400
        ∧ httpStatus (handle_subscription (some db) (some data) iOk ts) = 400
        ∧ httpStatus (handle_resume_request (some db) (some data) sr iOk ts) = 400) := by
  refine ⟨contact_preserves_valid db body re nOk iOk ts ip hdb,
    subscribe_preserves_valid db body iOk ts hdb,
    resume_preserves_valid db body sr iOk ts hdb,
    is_valid_email_ne_empty, ?_⟩
  intro data hd hinv
  refine ⟨?_, ?_, ?_⟩
  · simp [httpStatus,
      contact_validation_400 db data re nOk iOk ts ip hd (contactErrors_ne_of_invalid data hinv)]
  · simp [httpStatus,
      subscribe_validation_400 db data iOk ts hd (subscribeErrors_ne_of_invalid data hinv)]
  · simp [httpStatus,
      resume_validation_400 db data sr iOk ts hd (resumeErrors_ne_of_invalid data hinv)]

/-- Witness for C6 at an empty store and a concrete body with an invalid
email. -/
theorem inserted_emails_validated_witness :
    httpStatus (handle_contact_form (some ⟨[], [], []⟩) (some [("email", "bad")])
        none true true 0 "ip") = 400
    ∧ httpStatus (handle_subscription (some ⟨[], [], []⟩) (some [("email", "bad")])
        true 0) = 400
    ∧ httpStatus (handle_resume_request (some ⟨[], [], []⟩) (some [("email", "bad")])
        (true, "") true 0) = 400 :=
  (inserted_emails_validated ⟨[], [], []⟩ (some [("email", "bad")]) none true true
      (true, "") 0 "ip" ⟨by simp, by simp, by simp⟩).2.2.2.2
    [("email", "bad")] (by decide) (by rfl)
